import Mathlib

/-!
Shallow embedding of the intrusion-detection simulator backend
(detector.js, simulator.js, store.js).  Numbers of the JavaScript source
are modelled as real numbers; the impure reads of the source (timestamps
from now(), random identifiers, Date.now()) are made explicit parameters
of the corresponding functions.  Counters of the confusion matrix are
natural numbers (they start at 0 and are only ever incremented).
-/

noncomputable section

/-- Feature vector of one telemetry sample (simulator.js / detector.js). -/
structure Features where
  packetsPerSec : ℝ
  failedAuth : ℝ
  bytesOut : ℝ

/-- One telemetry event, as built in processTelemetry (simulator.js, lines 86-96). -/
structure Event where
  id : String
  ts : String
  deviceId : String
  deviceName : String
  features : Features
  trueLabel : String
  predicted : String
  score : ℝ
  threshold : ℝ

/-- The per-feature mean/std record `recent` of computeDriftScore; a value of
this shape is also what is frozen as a device baseline (detector.js, lines 50-54). -/
structure Recent where
  pkMean : ℝ
  pkStd : ℝ
  faMean : ℝ
  faStd : ℝ
  boMean : ℝ
  boStd : ℝ

/-- Device record (store.js, createDevice). -/
structure Device where
  id : String
  name : String
  model : String
  dataSize : ℝ
  quarantined : Bool
  lastSeen : String
  localW : List ℝ
  window : List Event
  maxWindow : ℕ
  baseline : Option Recent
  driftScore : ℝ
  baseAccuracy : ℝ
  localAccuracy : ℝ

/-- Parallel time-series arrays (store.js, stats.timeseries). -/
structure Timeseries where
  t : List ℝ
  f1 : List ℝ
  fpRate : List ℝ
  globalAccuracy : List ℝ
  attackLevel : List ℝ
  driftLevel : List ℝ

/-- Global detection statistics (store.js, stats). -/
structure Stats where
  totalEvents : ℕ
  TP : ℕ
  FP : ℕ
  TN : ℕ
  FN : ℕ
  precision : ℝ
  recallV : ℝ
  f1 : ℝ
  fpRate : ℝ
  timeseries : Timeseries

/-- Simulation environment (store.js, environment). -/
structure Environment where
  simulatorRunning : Bool
  attackLevel : ℝ
  driftLevel : ℝ
  attackType : String

/-- Toy federated global model (store.js, globalModel). -/
structure GlobalModel where
  round : ℕ
  accuracy : ℝ
  w : List ℝ

/-- Alert record (detector.js, maybeCreateAlert).  The human-readable message of
the source interpolates formatted numbers; it is modelled by the fixed prefix text. -/
structure Alert where
  id : String
  ts : String
  deviceId : String
  deviceName : String
  type : String
  severity : String
  message : String
  score : ℝ
  driftScore : ℝ
  quarantined : Bool

/-- The process-wide mutable store (store.js).  The devices map is not carried
here: processTelemetry receives its device explicitly and returns the updated
device. -/
structure Store where
  telemetry : List Event
  alerts : List Alert
  environment : Environment
  globalModel : GlobalModel
  stats : Stats

/-- Benign baseline constants (detector.js, lines 6-13). -/
structure BenignBaseline where
  packetsMean : ℝ
  packetsStd : ℝ
  failedMean : ℝ
  failedStd : ℝ
  bytesOutMean : ℝ
  bytesOutStd : ℝ

def BENIGN : BenignBaseline :=
  { packetsMean := 200, packetsStd := 40,
    failedMean := 0.5, failedStd := 0.7,
    bytesOutMean := 25000, bytesOutStd := 8000 }

/-- clamp (detector.js, lines 15-17). -/
def clamp (x lo hi : ℝ) : ℝ := max lo (min hi x)

/-- z-score; the source guards a zero std by 1e-6 via `std or 1e-6`
(detector.js, lines 19-21). -/
def z (x meanv stdv : ℝ) : ℝ := (x - meanv) / (if stdv = 0 then 1 / 1000000 else stdv)

/-- Anomaly score (detector.js, lines 24-30). -/
def anomalyScore (features : Features) : ℝ :=
  let zp := z features.packetsPerSec BENIGN.packetsMean BENIGN.packetsStd
  let zf := z features.failedAuth BENIGN.failedMean BENIGN.failedStd
  let zb := z features.bytesOut BENIGN.bytesOutMean BENIGN.bytesOutStd
  let dist := Real.sqrt (zp * zp + zf * zf + zb * zb)
  clamp (dist / 4.0) 0 1

/-- mean of a list (detector.js, lines 32-34). -/
def mean (arr : List ℝ) : ℝ := arr.sum / (arr.length : ℝ)

/-- population standard deviation (detector.js, lines 36-40). -/
def std (arr : List ℝ) : ℝ :=
  let m := mean arr
  Real.sqrt ((arr.map fun b => (b - m) ^ 2).sum / (arr.length : ℝ))

/-- JavaScript `x or 1` applied to a standard deviation: a zero std is replaced
by the floor value 1 (detector.js, lines 51-53). -/
def orOne (x : ℝ) : ℝ := if x = 0 then 1 else x

/-- The `recent` statistics of the current window (detector.js, lines 46-54). -/
def recentOf (window : List Event) : Recent :=
  let pk := window.map fun e => e.features.packetsPerSec
  let fa := window.map fun e => e.features.failedAuth
  let bo := window.map fun e => e.features.bytesOut
  { pkMean := mean pk, pkStd := orOne (std pk),
    faMean := mean fa, faStd := orOne (std fa),
    boMean := mean bo, boStd := orOne (std bo) }

/-- computeDriftScore (detector.js, lines 43-68).  The source mutates
device.baseline in place; here the updated device is returned alongside the
score. -/
def computeDriftScore (device : Device) : ℝ × Device :=
  if device.window.length < 30 then (device.driftScore, device)
  else
    let recent := recentOf device.window
    let device1 :=
      if device.baseline.isNone = true ∧ 60 ≤ device.window.length then
        { device with baseline := some recent }
      else device
    match device1.baseline with
    | none => (device.driftScore, device1)
    | some b =>
      let dp := |recent.pkMean - b.pkMean| / b.pkStd
      let df := |recent.faMean - b.faMean| / b.faStd
      let db := |recent.boMean - b.boMean| / b.boStd
      let d := (dp + df + db) / 3
      (clamp (d / 3.0) 0 1, device1)

/-- updateMetrics (detector.js, lines 71-92). -/
def updateMetrics (trueAttack predictedAttack : Bool) (s : Stats) : Stats :=
  let s1 :=
    if trueAttack && predictedAttack then { s with TP := s.TP + 1 }
    else if !trueAttack && predictedAttack then { s with FP := s.FP + 1 }
    else if !trueAttack && !predictedAttack then { s with TN := s.TN + 1 }
    else if trueAttack && !predictedAttack then { s with FN := s.FN + 1 }
    else s
  let precision : ℝ := if s1.TP + s1.FP = 0 then 0 else (s1.TP : ℝ) / ((s1.TP : ℝ) + (s1.FP : ℝ))
  let recallV : ℝ := if s1.TP + s1.FN = 0 then 0 else (s1.TP : ℝ) / ((s1.TP : ℝ) + (s1.FN : ℝ))
  let f1 : ℝ := if precision + recallV = 0 then 0 else 2 * precision * recallV / (precision + recallV)
  let fpRate : ℝ := if s1.FP + s1.TN = 0 then 0 else (s1.FP : ℝ) / ((s1.FP : ℝ) + (s1.TN : ℝ))
  { s1 with precision := precision, recallV := recallV, f1 := f1, fpRate := fpRate }

/-- severityFrom (detector.js, lines 98-103). -/
def severityFrom (score drift : ℝ) (predictedAttack : Bool) : String :=
  if predictedAttack = true ∧ 0.80 ≤ score then "high"
  else if predictedAttack = true ∧ 0.60 ≤ score then "medium"
  else if 0.55 ≤ drift then "medium"
  else "low"

/-- Number(x.toFixed(3)) of the source: rounding to three decimal places. -/
def round3 (x : ℝ) : ℝ := (round (x * 1000) : ℤ) / 1000

/-- maybeCreateAlert (detector.js, lines 105-128).  The fresh alert id of the
source (id8) is the explicit parameter aid. -/
def maybeCreateAlert (device : Device) (score driftScore : ℝ) (predictedAttack : Bool)
    (ts aid : String) : Option Alert :=
  let isDriftAlert := 0.55 ≤ driftScore
  let isAnomAlert := predictedAttack = true
  if ¬ isDriftAlert ∧ ¬ isAnomAlert then none
  else some
    { id := aid, ts := ts, deviceId := device.id, deviceName := device.name,
      type := if isAnomAlert then "anomaly" else "drift",
      severity := severityFrom score driftScore predictedAttack,
      message := if isAnomAlert then "Anomaly detected (score above threshold)."
        else "Concept drift detected.",
      score := round3 score, driftScore := round3 driftScore,
      quarantined := device.quarantined }

/-- The dynamic prediction threshold of processTelemetry (simulator.js, line 83). -/
def threshold (driftLevel : ℝ) : ℝ := clamp (0.55 + driftLevel * 0.15) 0.45 0.85

/-- addTelemetry (store.js, lines 91-94): unshift at the front, pop the oldest
entry when the log would exceed 600 entries. -/
def addTelemetry (evt : Event) (st : Store) : Store :=
  let t := evt :: st.telemetry
  { st with telemetry := if 600 < t.length then t.dropLast else t }

/-- addAlert (store.js, lines 96-99): unshift at the front, pop the oldest entry
when the log would exceed 400 entries. -/
def addAlert (alert : Alert) (st : Store) : Store :=
  let a := alert :: st.alerts
  { st with alerts := if 400 < a.length then a.dropLast else a }

/-- `if (alertObj) addAlert(alertObj)` of processTelemetry (simulator.js, line 123). -/
def addAlertOpt (o : Option Alert) (st : Store) : Store :=
  match o with
  | some a => addAlert a st
  | none => st

/-- push one value at the end of a series array, then shift the oldest value out
when the array exceeds 250 points (store.js, lines 106-116). -/
def pushSeries (arr : List ℝ) (x : ℝ) : List ℝ :=
  let a := arr ++ [x]
  if 250 < a.length then a.tail else a

/-- pushTimeseriesSnapshot (store.js, lines 101-117).  Date.now() is the
explicit parameter tnow. -/
def pushTimeseriesSnapshot (st : Store) (tnow : ℝ) : Store :=
  let s := st.stats
  { st with stats :=
    { s with timeseries :=
      { t := pushSeries s.timeseries.t tnow,
        f1 := pushSeries s.timeseries.f1 s.f1,
        fpRate := pushSeries s.timeseries.fpRate s.fpRate,
        globalAccuracy := pushSeries s.timeseries.globalAccuracy st.globalModel.accuracy,
        attackLevel := pushSeries s.timeseries.attackLevel st.environment.attackLevel,
        driftLevel := pushSeries s.timeseries.driftLevel st.environment.driftLevel } } }

/-- Result of one processTelemetry call. -/
structure PTResult where
  store : Store
  device : Device
  evt : Option Event
  alert : Option Alert

/-- processTelemetry (simulator.js, lines 74-129).  The impure reads of the
source (now(), the random event id, the random alert id, Date.now()) are the
explicit parameters ts, eid, aid and tnow. -/
def processTelemetry (st : Store) (device : Device) (features : Features)
    (trueLabel : Option String) (ts eid aid : String) (tnow : ℝ) : PTResult :=
  if device.quarantined = true then ⟨st, device, none, none⟩
  else
    let env := st.environment
    let score := anomalyScore features
    let thr := threshold env.driftLevel
    let predictedAttack : Bool := decide (thr < score)
    let evt : Event :=
      { id := eid, ts := ts, deviceId := device.id, deviceName := device.name,
        features := features,
        trueLabel := trueLabel.getD ("Unknown"),
        predicted := if predictedAttack = true then "Attack" else "Normal",
        score := round3 score, threshold := round3 thr }
    let w := device.window ++ [evt]
    let device1 := { device with window := if device.maxWindow < w.length then w.tail else w }
    let cd := computeDriftScore device1
    let device3 :=
      { cd.2 with
        driftScore := cd.1,
        localAccuracy :=
          clamp (device.baseAccuracy * (1 - env.attackLevel * 0.15 - cd.1 * 0.22)) 0.4 0.99,
        lastSeen := ts }
    let stats1 := { st.stats with totalEvents := st.stats.totalEvents + 1 }
    let stats2 := updateMetrics (decide (trueLabel = some ("Attack"))) predictedAttack stats1
    let st1 := { st with stats := stats2 }
    let st2 := addTelemetry evt st1
    let alertObj := maybeCreateAlert device3 score cd.1 predictedAttack ts aid
    let st3 := addAlertOpt alertObj st2
    let st4 := if st3.stats.totalEvents % 10 = 0 then pushTimeseriesSnapshot st3 tnow else st3
    ⟨st4, device3, some evt, alertObj⟩

/-- createDevice (store.js, lines 45-72), after the defaulting of its optional
arguments; the fresh uuid and the creation timestamp are explicit parameters. -/
def createDevice (id name model : String) (dataSize : ℝ) (localW : List ℝ)
    (ts : String) : Device :=
  { id := id, name := name, model := model, dataSize := dataSize,
    quarantined := false, lastSeen := ts, localW := localW,
    window := [], maxWindow := 200, baseline := none, driftScore := 0.05,
    baseAccuracy := 0.92, localAccuracy := 0.92 }

def initialTimeseries : Timeseries := ⟨[], [], [], [], [], []⟩

def initialStats : Stats :=
  { totalEvents := 0, TP := 0, FP := 0, TN := 0, FN := 0,
    precision := 0, recallV := 0, f1 := 0, fpRate := 0, timeseries := initialTimeseries }

def initialEnvironment : Environment :=
  { simulatorRunning := false, attackLevel := 0, driftLevel := 0, attackType := "none" }

/-- The initial store (store.js, lines 8-43); the random initial weight vector
is the explicit parameter w. -/
def initialStore (w : List ℝ) : Store :=
  { telemetry := [], alerts := [],
    environment := initialEnvironment,
    globalModel := { round := 1, accuracy := 0.92, w := w },
    stats := initialStats }

/-- Attack probability of one scheduler tick (simulator.js, line 158). -/
def pAttack (env : Environment) : ℝ :=
  clamp (0.03 + env.attackLevel * 0.55 + env.driftLevel * 0.15) 0 0.95

/-- `env.attackType not none and random lt pAttack` (simulator.js, line 159);
the uniform draw of Math.random() is the explicit parameter r. -/
def isAttackTick (env : Environment) (r : ℝ) : Bool :=
  decide (¬ env.attackType = ("none")) && decide (r < pAttack env)

/-- The true label handed to processTelemetry by the scheduler tick
(simulator.js, line 168). -/
def tickTrueLabel (env : Environment) (r : ℝ) : String :=
  if isAttackTick env r = true then "Attack" else "Normal"

/-- The per-tick impure inputs of one processTelemetry call. -/
structure TickInput where
  features : Features
  trueLabel : Option String
  ts : String
  eid : String
  aid : String
  tnow : ℝ

/-- Iterated processTelemetry over a list of tick inputs, collecting the emitted
event/alert pair of every call. -/
def runTicks (st : Store) (device : Device) (ins : List TickInput) :
    Store × Device × List (Option Event × Option Alert) :=
  match ins with
  | [] => (st, device, [])
  | i :: rest =>
    let r := processTelemetry st device i.features i.trueLabel i.ts i.eid i.aid i.tnow
    let k := runTicks r.store r.device rest
    (k.1, k.2.1, (r.evt, r.alert) :: k.2.2)

/-- All six parallel time-series arrays hold at most 250 points. -/
def seriesBounded (tsr : Timeseries) : Prop :=
  tsr.t.length ≤ 250 ∧ tsr.f1.length ≤ 250 ∧ tsr.fpRate.length ≤ 250 ∧
  tsr.globalAccuracy.length ≤ 250 ∧ tsr.attackLevel.length ≤ 250 ∧ tsr.driftLevel.length ≤ 250

/-- The documented bounds of the global histories. -/
def histBounded (st : Store) : Prop :=
  st.telemetry.length ≤ 600 ∧ st.alerts.length ≤ 400 ∧ seriesBounded st.stats.timeseries

/-- The drift-score formula stated by the spec for a device with a baseline:
average over the three features of the absolute gap between the recent window
mean and the baseline mean over the baseline std, divided by 3.0 and clamped
to the unit interval.  Stated from the spec words, for comparison with
computeDriftScore. -/
def driftScoreSpec (w : List Event) (b : Recent) : ℝ :=
  clamp ((( |mean (w.map fun e => e.features.packetsPerSec) - b.pkMean| / b.pkStd +
            |mean (w.map fun e => e.features.failedAuth) - b.faMean| / b.faStd +
            |mean (w.map fun e => e.features.bytesOut) - b.boMean| / b.boStd) / 3) / 3.0) 0 1

/-- A sample feature vector, used to instantiate theorems at concrete inputs. -/
def featuresW : Features := ⟨200, 0.5, 25000⟩

/-- A freshly created, non-quarantined sample device. -/
def deviceW : Device := createDevice ("d1") ("Device 1") ("Lightweight Model") 2000 [] ("t0")

/-- The sample device, quarantined. -/
def deviceQ : Device := { deviceW with quarantined := true }

/-- A sample baseline record. -/
def recentW : Recent := ⟨200, 1, 0.5, 1, 25000, 1⟩

/-- The sample device with a frozen baseline. -/
def deviceB : Device := { deviceW with baseline := some recentW }

/-- The initial store with an empty global-model weight vector. -/
def storeW : Store := initialStore []

/-- The initial store with drift level 0.3. -/
def storeD : Store :=
  { storeW with environment := { storeW.environment with driftLevel := 0.3 } }

/-- A sample tick input. -/
def tickW : TickInput := ⟨featuresW, some ("Normal"), "t1", "e1", "a1", 0⟩

/-- A sample telemetry event. -/
def evtW : Event := ⟨"e0", "t0", "d1", "Device 1", featuresW, "Normal", "Normal", 0, 0.55⟩

/-- A sample alert. -/
def alertW : Alert := ⟨"a0", "t0", "d1", "Device 1", "drift", "low", "m", 0, 0.6, false⟩

end

section Theorems

lemma le_clamp (x lo hi : ℝ) : lo ≤ clamp x lo hi := le_max_left _ _

lemma clamp_le (x : ℝ) {lo hi : ℝ} (h : lo ≤ hi) : clamp x lo hi ≤ hi :=
  max_le h (min_le_left _ _)

lemma clamp_mono (lo hi : ℝ) {x y : ℝ} (h : x ≤ y) : clamp x lo hi ≤ clamp y lo hi :=
  max_le_max le_rfl (min_le_min le_rfl h)

/-- C1: the anomaly score is a pure function of the feature vector alone: it
equals the Euclidean norm of the three per-feature z-scores against the fixed
benign baseline (packets 200/40, failedAuth 0.5/0.7, bytesOut 25000/8000),
divided by 4.0 and clamped to the interval from 0 to 1, and the result always
lies in that interval. -/
theorem anomalyScore_spec (features : Features) :
    BENIGN = ⟨200, 40, 0.5, 0.7, 25000, 8000⟩ ∧
    anomalyScore features =
      clamp (Real.sqrt
        (z features.packetsPerSec 200 40 * z features.packetsPerSec 200 40 +
         z features.failedAuth 0.5 0.7 * z features.failedAuth 0.5 0.7 +
         z features.bytesOut 25000 8000 * z features.bytesOut 25000 8000) / 4.0) 0 1 ∧
    0 ≤ anomalyScore features ∧ anomalyScore features ≤ 1 := by
  refine ⟨rfl, rfl, ?_, ?_⟩
  · simp only [anomalyScore]
    exact le_clamp _ _ _
  · simp only [anomalyScore]
    exact clamp_le _ (by norm_num)

/-- C2: the prediction threshold equals clamp of 0.55 plus driftLevel times
0.15 between 0.45 and 0.85; it is monotone non-decreasing in driftLevel,
always lies between 0.45 and 0.85, and the predicted label of the emitted
event is Attack exactly when the anomaly score strictly exceeds the
threshold. -/
theorem threshold_spec (d dd : ℝ) (st : Store) (device : Device) (features : Features)
    (trueLabel : Option String) (ts eid aid : String) (tnow : ℝ)
    (hd0 : 0 ≤ d) (hd1 : d ≤ 1) (hdd : d ≤ dd)
    (henv : st.environment.driftLevel = d) (hq : device.quarantined = false) :
    threshold d = clamp (0.55 + d * 0.15) 0.45 0.85 ∧
    threshold d ≤ threshold dd ∧
    0.45 ≤ threshold d ∧ threshold d ≤ 0.85 ∧
    (processTelemetry st device features trueLabel ts eid aid tnow).evt.map Event.predicted =
      some (if threshold d < anomalyScore features then "Attack" else "Normal") := by
  refine ⟨rfl, ?_, le_clamp _ _ _, clamp_le _ (by norm_num), ?_⟩
  · exact clamp_mono _ _ (by nlinarith)
  · simp [processTelemetry, hq, henv, decide_eq_true_eq]

/-- Witness for threshold_spec at driftLevel 0.3. -/
theorem threshold_spec_witness :
    (0 : ℝ) ≤ 0.3 ∧ (0.3 : ℝ) ≤ 1 ∧ (0.3 : ℝ) ≤ 0.5 ∧
    storeD.environment.driftLevel = 0.3 ∧ deviceW.quarantined = false ∧
    threshold 0.3 ≤ threshold 0.5 ∧ 0.45 ≤ threshold 0.3 :=
  ⟨by norm_num, by norm_num, by norm_num, rfl, rfl,
    (threshold_spec 0.3 0.5 storeD deviceW featuresW none ("t") ("e") ("a") 0
      (by norm_num) (by norm_num) (by norm_num) rfl rfl).2.1,
    (threshold_spec 0.3 0.5 storeD deviceW featuresW none ("t") ("e") ("a") 0
      (by norm_num) (by norm_num) (by norm_num) rfl rfl).2.2.1⟩

/-- C3 counterexample: at score 0.5, driftScore 0.6, predictedAttack true, the
claim says the alert severity is low regardless of driftScore, but the code
falls through to the drift branch and returns medium. -/
theorem severity_claim_counterexample :
    severityFrom 0.5 0.6 true = "medium" ∧ severityFrom 0.5 0.6 true ≠ "low" := by
  have h : severityFrom 0.5 0.6 true = "medium" := by
    unfold severityFrom
    rw [if_neg (by norm_num), if_neg (by norm_num), if_pos (by norm_num)]
  exact ⟨h, by rw [h]; decide⟩

/-- C3 (amended): an alert fires exactly when predictedAttack holds or the
driftScore is at least 0.55; when predictedAttack holds the type is anomaly
even if the drift condition also holds, and the type is drift only when the
drift condition holds alone; severity is high when predicted attack and score
at least 0.80, medium when (not high and) either predicted attack with score
at least 0.60 or driftScore at least 0.55 regardless of the predicted label,
and low otherwise. -/
theorem maybeCreateAlert_spec (device : Device) (score drift : ℝ) (pa : Bool)
    (ts aid : String) :
    (maybeCreateAlert device score drift pa ts aid = none ↔ pa = false ∧ drift < 0.55) ∧
    ((maybeCreateAlert device score drift pa ts aid).map Alert.type =
      if pa = true then some ("anomaly")
      else if 0.55 ≤ drift then some ("drift") else none) ∧
    ((maybeCreateAlert device score drift pa ts aid).map Alert.severity =
      if pa = true ∨ 0.55 ≤ drift then some (severityFrom score drift pa) else none) ∧
    severityFrom score drift pa =
      (if pa = true ∧ 0.80 ≤ score then "high"
       else if (pa = true ∧ 0.60 ≤ score) ∨ 0.55 ≤ drift then "medium"
       else "low") := by
  refine ⟨?_, ?_, ?_, ?_⟩
  · by_cases hp : pa = true <;> by_cases hd : (0.55 : ℝ) ≤ drift <;>
      simp [maybeCreateAlert, hp, hd, not_le] <;> linarith
  · by_cases hp : pa = true <;> by_cases hd : (0.55 : ℝ) ≤ drift <;>
      simp [maybeCreateAlert, hp, hd]
  · by_cases hp : pa = true <;> by_cases hd : (0.55 : ℝ) ≤ drift <;>
      simp [maybeCreateAlert, hp, hd]
  · by_cases hp : pa = true <;> by_cases h8 : (0.80 : ℝ) ≤ score <;>
      by_cases h6 : (0.60 : ℝ) ≤ score <;> by_cases hd : (0.55 : ℝ) ≤ drift <;>
      simp [severityFrom, hp, h8, h6, hd]

/-- Witness for maybeCreateAlert_spec at concrete arguments. -/
theorem maybeCreateAlert_spec_witness :
    severityFrom 0.9 0 true =
      (if true = true ∧ (0.80 : ℝ) ≤ 0.9 then "high"
       else if (true = true ∧ (0.60 : ℝ) ≤ 0.9) ∨ (0.55 : ℝ) ≤ 0 then "medium"
       else "low") :=
  (maybeCreateAlert_spec deviceW 0.9 0 true ("t") ("a")).2.2.2

/-- C4: a quarantined device is inert: across any number of processTelemetry
calls it produces no event and no alert and neither the store (telemetry log,
alert log, stats, time series, environment) nor the device (window, drift
score, local accuracy, lastSeen) changes, as long as it stays quarantined. -/
theorem quarantined_frame (st : Store) (device : Device) (ins : List TickInput)
    (hq : device.quarantined = true) :
    runTicks st device ins =
      (st, device, ins.map fun _ => ((none : Option Event), (none : Option Alert))) := by
  induction ins generalizing st with
  | nil => simp [runTicks]
  | cons i rest ih => simp [runTicks, processTelemetry, hq, ih]

/-- Witness for quarantined_frame on a concrete quarantined device and one tick. -/
theorem quarantined_frame_witness :
    deviceQ.quarantined = true ∧
    runTicks storeW deviceQ [tickW] =
      (storeW, deviceQ, [((none : Option Event), (none : Option Alert))]) :=
  ⟨rfl, by simpa using quarantined_frame storeW deviceQ [tickW] rfl⟩

lemma cds_lt30 (device : Device) (h : device.window.length < 30) :
    computeDriftScore device = (device.driftScore, device) := by
  simp [computeDriftScore, h]

lemma cds_mid (device : Device) (h30 : 30 ≤ device.window.length)
    (h60 : device.window.length < 60) (hb : device.baseline = none) :
    computeDriftScore device = (device.driftScore, device) := by
  have h1 : ¬ device.window.length < 30 := not_lt.mpr h30
  have h2 : ¬ 60 ≤ device.window.length := not_le.mpr h60
  simp [computeDriftScore, h1, h2, hb]

lemma cds_baseline (device : Device) :
    (computeDriftScore device).2.baseline =
      if device.window.length < 30 then device.baseline
      else if device.baseline.isNone = true ∧ 60 ≤ device.window.length then
        some (recentOf device.window)
      else device.baseline := by
  by_cases h30 : device.window.length < 30
  · simp [computeDriftScore, h30]
  · by_cases hc : device.baseline.isNone = true ∧ 60 ≤ device.window.length
    · simp [computeDriftScore, h30, hc]
    · simp only [computeDriftScore, h30, hc, if_neg, if_false]
      rcases hbb : device.baseline with _ | b <;> simp [hbb, h30, hc]

lemma cds_baseline_isSome (device : Device) (h : device.baseline.isSome = true) :
    (computeDriftScore device).2.baseline = device.baseline := by
  rw [cds_baseline]
  rcases hbb : device.baseline with _ | b
  · rw [hbb] at h; simp at h
  · simp [hbb]

lemma cds_score_of_some (device : Device) (b : Recent)
    (h30 : 30 ≤ device.window.length)
    (hb : (computeDriftScore device).2.baseline = some b) :
    (computeDriftScore device).1 = driftScoreSpec device.window b := by
  have h1 : ¬ device.window.length < 30 := not_lt.mpr h30
  rw [cds_baseline] at hb
  rw [if_neg h1] at hb
  by_cases hc : device.baseline.isNone = true ∧ 60 ≤ device.window.length
  · rw [if_pos hc] at hb
    have hbe : recentOf device.window = b := by simpa using hb
    subst hbe
    simp [computeDriftScore, h1, hc, driftScoreSpec, recentOf]
  · rw [if_neg hc] at hb
    simp [computeDriftScore, h1, hc, hb, driftScoreSpec, recentOf]

/-- C5: computeDriftScore returns the last driftScore of the device (0.05 on a
fresh device) whenever the window holds fewer than 30 samples, or whenever no
baseline exists once the call completed (window between 30 and 59 samples and
no baseline yet); when a baseline exists after the call (pre-existing, or just
captured at window length 60 or more), it returns the average over the three
features of the absolute recent-mean-minus-baseline-mean over baseline std,
divided by 3.0 and clamped to the unit interval. -/
theorem computeDriftScore_spec (device : Device) (b : Recent)
    (i n m : String) (ds : ℝ) (lw : List ℝ) (t0 : String) :
    (device.window.length < 30 → computeDriftScore device = (device.driftScore, device)) ∧
    (30 ≤ device.window.length → device.window.length < 60 → device.baseline = none →
      computeDriftScore device = (device.driftScore, device)) ∧
    (30 ≤ device.window.length → (computeDriftScore device).2.baseline = some b →
      (computeDriftScore device).1 = driftScoreSpec device.window b) ∧
    (createDevice i n m ds lw t0).driftScore = 0.05 :=
  ⟨cds_lt30 device, cds_mid device, cds_score_of_some device b, rfl⟩

/-- Witness for computeDriftScore_spec on a fresh device with an empty window. -/
theorem computeDriftScore_spec_witness :
    deviceW.window.length < 30 ∧
    computeDriftScore deviceW = (deviceW.driftScore, deviceW) ∧
    (createDevice ("i") ("n") ("m") 0 [] ("t")).driftScore = 0.05 :=
  ⟨by simp [deviceW, createDevice],
   (computeDriftScore_spec deviceW recentW ("i") ("n") ("m") 0 [] ("t")).1
     (by simp [deviceW, createDevice]),
   (computeDriftScore_spec deviceW recentW ("i") ("n") ("m") 0 [] ("t")).2.2.2⟩

/-- C6: the device baseline is written at most once: a computeDriftScore call
leaves it unchanged except when no baseline exists and the window holds at
least 60 samples, in which case it becomes the current window statistics with
a zero std replaced by the floor value 1; once some baseline exists neither
computeDriftScore nor processTelemetry ever changes it. -/
theorem baseline_capture_spec (device : Device) (st : Store) (features : Features)
    (trueLabel : Option String) (ts eid aid : String) (tnow : ℝ) (w : List Event) :
    ((computeDriftScore device).2.baseline =
      if device.window.length < 30 then device.baseline
      else if device.baseline.isNone = true ∧ 60 ≤ device.window.length then
        some (recentOf device.window)
      else device.baseline) ∧
    (device.baseline.isSome = true →
      (computeDriftScore device).2.baseline = device.baseline) ∧
    (device.baseline.isSome = true →
      (processTelemetry st device features trueLabel ts eid aid tnow).device.baseline =
        device.baseline) ∧
    (std (w.map fun e => e.features.packetsPerSec) = 0 → (recentOf w).pkStd = 1) ∧
    (std (w.map fun e => e.features.failedAuth) = 0 → (recentOf w).faStd = 1) ∧
    (std (w.map fun e => e.features.bytesOut) = 0 → (recentOf w).boStd = 1) := by
  refine ⟨cds_baseline device, cds_baseline_isSome device, ?_, ?_, ?_, ?_⟩
  · intro h
    cases hq : device.quarantined with
    | true => simp [processTelemetry, hq]
    | false =>
      simp only [processTelemetry, hq]
      simp only [Bool.false_eq_true, if_false]
      refine (cds_baseline_isSome _ ?_).trans rfl
      exact h
  · intro h; simp [recentOf, orOne, h]
  · intro h; simp [recentOf, orOne, h]
  · intro h; simp [recentOf, orOne, h]

/-- Witness for baseline_capture_spec on a device with a frozen baseline. -/
theorem baseline_capture_spec_witness :
    deviceB.baseline.isSome = true ∧
    (computeDriftScore deviceB).2.baseline = deviceB.baseline ∧
    (processTelemetry storeW deviceB featuresW none ("t") ("e") ("a") 0).device.baseline =
      deviceB.baseline :=
  ⟨rfl,
   (baseline_capture_spec deviceB storeW featuresW none ("t") ("e") ("a") 0 []).2.1 rfl,
   (baseline_capture_spec deviceB storeW featuresW none ("t") ("e") ("a") 0 []).2.2.1 rfl⟩

@[simp] lemma addTelemetry_stats (e : Event) (st : Store) :
    (addTelemetry e st).stats = st.stats := rfl

@[simp] lemma addTelemetry_alerts (e : Event) (st : Store) :
    (addTelemetry e st).alerts = st.alerts := rfl

@[simp] lemma addAlert_stats (a : Alert) (st : Store) :
    (addAlert a st).stats = st.stats := rfl

@[simp] lemma addAlert_telemetry (a : Alert) (st : Store) :
    (addAlert a st).telemetry = st.telemetry := rfl

@[simp] lemma addAlertOpt_stats (o : Option Alert) (st : Store) :
    (addAlertOpt o st).stats = st.stats := by cases o <;> rfl

@[simp] lemma addAlertOpt_telemetry (o : Option Alert) (st : Store) :
    (addAlertOpt o st).telemetry = st.telemetry := by cases o <;> rfl

@[simp] lemma pushTS_telemetry (st : Store) (tnow : ℝ) :
    (pushTimeseriesSnapshot st tnow).telemetry = st.telemetry := rfl

@[simp] lemma pushTS_alerts (st : Store) (tnow : ℝ) :
    (pushTimeseriesSnapshot st tnow).alerts = st.alerts := rfl

@[simp] lemma pushTS_TP (st : Store) (tnow : ℝ) :
    (pushTimeseriesSnapshot st tnow).stats.TP = st.stats.TP := rfl

@[simp] lemma pushTS_FP (st : Store) (tnow : ℝ) :
    (pushTimeseriesSnapshot st tnow).stats.FP = st.stats.FP := rfl

@[simp] lemma pushTS_TN (st : Store) (tnow : ℝ) :
    (pushTimeseriesSnapshot st tnow).stats.TN = st.stats.TN := rfl

@[simp] lemma pushTS_FN (st : Store) (tnow : ℝ) :
    (pushTimeseriesSnapshot st tnow).stats.FN = st.stats.FN := rfl

@[simp] lemma pushTS_totalEvents (st : Store) (tnow : ℝ) :
    (pushTimeseriesSnapshot st tnow).stats.totalEvents = st.stats.totalEvents := rfl

lemma updateMetrics_step (ta pa : Bool) (s : Stats) :
    (updateMetrics ta pa s).totalEvents = s.totalEvents ∧
    (updateMetrics ta pa s).TP + (updateMetrics ta pa s).FP +
      (updateMetrics ta pa s).TN + (updateMetrics ta pa s).FN =
      s.TP + s.FP + s.TN + s.FN + 1 ∧
    s.TP ≤ (updateMetrics ta pa s).TP ∧ s.FP ≤ (updateMetrics ta pa s).FP ∧
    s.TN ≤ (updateMetrics ta pa s).TN ∧ s.FN ≤ (updateMetrics ta pa s).FN := by
  cases ta <;> cases pa <;> simp [updateMetrics] <;> omega

lemma updateMetrics_trueNormal (pa : Bool) (s : Stats) :
    (updateMetrics false pa s).TP = s.TP ∧ (updateMetrics false pa s).FN = s.FN ∧
    (updateMetrics false pa s).TN + (updateMetrics false pa s).FP = s.TN + s.FP + 1 := by
  cases pa <;> simp [updateMetrics] <;> omega

@[simp] lemma snapIf_stats_TP (c : Prop) [Decidable c] (st : Store) (tnow : ℝ) :
    (if c then pushTimeseriesSnapshot st tnow else st).stats.TP = st.stats.TP := by
  split <;> simp

@[simp] lemma snapIf_stats_FP (c : Prop) [Decidable c] (st : Store) (tnow : ℝ) :
    (if c then pushTimeseriesSnapshot st tnow else st).stats.FP = st.stats.FP := by
  split <;> simp

@[simp] lemma snapIf_stats_TN (c : Prop) [Decidable c] (st : Store) (tnow : ℝ) :
    (if c then pushTimeseriesSnapshot st tnow else st).stats.TN = st.stats.TN := by
  split <;> simp

@[simp] lemma snapIf_stats_FN (c : Prop) [Decidable c] (st : Store) (tnow : ℝ) :
    (if c then pushTimeseriesSnapshot st tnow else st).stats.FN = st.stats.FN := by
  split <;> simp

@[simp] lemma snapIf_stats_totalEvents (c : Prop) [Decidable c] (st : Store) (tnow : ℝ) :
    (if c then pushTimeseriesSnapshot st tnow else st).stats.totalEvents =
      st.stats.totalEvents := by
  split <;> simp

@[simp] lemma snapIf_telemetry (c : Prop) [Decidable c] (st : Store) (tnow : ℝ) :
    (if c then pushTimeseriesSnapshot st tnow else st).telemetry = st.telemetry := by
  split <;> simp

@[simp] lemma snapIf_alerts (c : Prop) [Decidable c] (st : Store) (tnow : ℝ) :
    (if c then pushTimeseriesSnapshot st tnow else st).alerts = st.alerts := by
  split <;> simp

lemma pt_stats (st : Store) (device : Device) (features : Features)
    (trueLabel : Option String) (ts eid aid : String) (tnow : ℝ)
    (hq : device.quarantined = false) :
    ((processTelemetry st device features trueLabel ts eid aid tnow).store.stats.TP =
      (updateMetrics (decide (trueLabel = some ("Attack")))
        (decide (threshold st.environment.driftLevel < anomalyScore features))
        { st.stats with totalEvents := st.stats.totalEvents + 1 }).TP) ∧
    ((processTelemetry st device features trueLabel ts eid aid tnow).store.stats.FP =
      (updateMetrics (decide (trueLabel = some ("Attack")))
        (decide (threshold st.environment.driftLevel < anomalyScore features))
        { st.stats with totalEvents := st.stats.totalEvents + 1 }).FP) ∧
    ((processTelemetry st device features trueLabel ts eid aid tnow).store.stats.TN =
      (updateMetrics (decide (trueLabel = some ("Attack")))
        (decide (threshold st.environment.driftLevel < anomalyScore features))
        { st.stats with totalEvents := st.stats.totalEvents + 1 }).TN) ∧
    ((processTelemetry st device features trueLabel ts eid aid tnow).store.stats.FN =
      (updateMetrics (decide (trueLabel = some ("Attack")))
        (decide (threshold st.environment.driftLevel < anomalyScore features))
        { st.stats with totalEvents := st.stats.totalEvents + 1 }).FN) ∧
    ((processTelemetry st device features trueLabel ts eid aid tnow).store.stats.totalEvents =
      (updateMetrics (decide (trueLabel = some ("Attack")))
        (decide (threshold st.environment.driftLevel < anomalyScore features))
        { st.stats with totalEvents := st.stats.totalEvents + 1 }).totalEvents) ∧
    (processTelemetry st device features trueLabel ts eid aid tnow).evt.isSome = true := by
  simp only [processTelemetry, hq, Bool.false_eq_true, if_false]
  refine ⟨?_, ?_, ?_, ?_, ?_, rfl⟩ <;> simp

/-- C7: every confusion-matrix update increments exactly one of TP, FP, TN, FN
by one (the counters are monotone non-decreasing and their sum grows by
exactly one), and after every processTelemetry call on a non-quarantined
device (which always produces an event), TP plus FP plus TN plus FN equals
stats.totalEvents provided that equality held before the call. -/
theorem confusion_matrix_spec (ta pa : Bool) (s : Stats) (st : Store) (device : Device)
    (features : Features) (trueLabel : Option String) (ts eid aid : String) (tnow : ℝ)
    (hq : device.quarantined = false)
    (hsum : st.stats.TP + st.stats.FP + st.stats.TN + st.stats.FN = st.stats.totalEvents) :
    ((updateMetrics ta pa s).TP + (updateMetrics ta pa s).FP +
      (updateMetrics ta pa s).TN + (updateMetrics ta pa s).FN =
      s.TP + s.FP + s.TN + s.FN + 1) ∧
    (s.TP ≤ (updateMetrics ta pa s).TP ∧ s.FP ≤ (updateMetrics ta pa s).FP ∧
     s.TN ≤ (updateMetrics ta pa s).TN ∧ s.FN ≤ (updateMetrics ta pa s).FN) ∧
    (processTelemetry st device features trueLabel ts eid aid tnow).evt.isSome = true ∧
    ((processTelemetry st device features trueLabel ts eid aid tnow).store.stats.TP +
     (processTelemetry st device features trueLabel ts eid aid tnow).store.stats.FP +
     (processTelemetry st device features trueLabel ts eid aid tnow).store.stats.TN +
     (processTelemetry st device features trueLabel ts eid aid tnow).store.stats.FN =
     (processTelemetry st device features trueLabel ts eid aid tnow).store.stats.totalEvents) := by
  obtain ⟨u1, u2, u3, u4, u5, u6⟩ := updateMetrics_step ta pa s
  obtain ⟨e1, e2, e3, e4, e5, e6⟩ := pt_stats st device features trueLabel ts eid aid tnow hq
  refine ⟨u2, ⟨u3, u4, u5, u6⟩, e6, ?_⟩
  obtain ⟨v1, v2, _⟩ := updateMetrics_step (decide (trueLabel = some ("Attack")))
    (decide (threshold st.environment.driftLevel < anomalyScore features))
    { st.stats with totalEvents := st.stats.totalEvents + 1 }
  rw [e1, e2, e3, e4, e5, v2, v1]
  show st.stats.TP + st.stats.FP + st.stats.TN + st.stats.FN + 1 =
    st.stats.totalEvents + 1
  omega

/-- Witness for confusion_matrix_spec on the initial store and a fresh device. -/
theorem confusion_matrix_spec_witness :
    deviceW.quarantined = false ∧
    (storeW.stats.TP + storeW.stats.FP + storeW.stats.TN + storeW.stats.FN =
      storeW.stats.totalEvents) ∧
    (processTelemetry storeW deviceW featuresW (some ("Normal")) ("t") ("e") ("a") 0).evt.isSome
      = true ∧
    ((processTelemetry storeW deviceW featuresW (some ("Normal")) ("t") ("e") ("a") 0).store.stats.TP +
     (processTelemetry storeW deviceW featuresW (some ("Normal")) ("t") ("e") ("a") 0).store.stats.FP +
     (processTelemetry storeW deviceW featuresW (some ("Normal")) ("t") ("e") ("a") 0).store.stats.TN +
     (processTelemetry storeW deviceW featuresW (some ("Normal")) ("t") ("e") ("a") 0).store.stats.FN =
     (processTelemetry storeW deviceW featuresW (some ("Normal")) ("t") ("e") ("a") 0).store.stats.totalEvents) :=
  ⟨rfl, rfl,
   (confusion_matrix_spec true true initialStats storeW deviceW featuresW (some ("Normal"))
      ("t") ("e") ("a") 0 rfl rfl).2.2.1,
   (confusion_matrix_spec true true initialStats storeW deviceW featuresW (some ("Normal"))
      ("t") ("e") ("a") 0 rfl rfl).2.2.2⟩

lemma pt_evt_trueLabel (st : Store) (device : Device) (features : Features)
    (trueLabel : Option String) (ts eid aid : String) (tnow : ℝ)
    (hq : device.quarantined = false) :
    (processTelemetry st device features trueLabel ts eid aid tnow).evt.map Event.trueLabel =
      some (trueLabel.getD ("Unknown")) := by
  simp [processTelemetry, hq]

/-- C10: processTelemetry called on a non-quarantined device without a true
label stores the string Unknown as the event's trueLabel (a value outside the
Normal or Attack domain), and the confusion-matrix update counts the sample as
a true Normal: TP and FN are unchanged while TN plus FP grows by one, because
updateMetrics only tests whether the passed label equals Attack. -/
theorem unknown_label_spec (st : Store) (device : Device) (features : Features)
    (ts eid aid : String) (tnow : ℝ) (hq : device.quarantined = false) :
    ((processTelemetry st device features none ts eid aid tnow).evt.map Event.trueLabel =
      some ("Unknown")) ∧
    (processTelemetry st device features none ts eid aid tnow).store.stats.TP = st.stats.TP ∧
    (processTelemetry st device features none ts eid aid tnow).store.stats.FN = st.stats.FN ∧
    ((processTelemetry st device features none ts eid aid tnow).store.stats.TN +
     (processTelemetry st device features none ts eid aid tnow).store.stats.FP =
     st.stats.TN + st.stats.FP + 1) := by
  obtain ⟨e1, e2, e3, e4, e5, _⟩ := pt_stats st device features none ts eid aid tnow hq
  have hta : decide ((none : Option String) = some ("Attack")) = false := rfl
  rw [hta] at e1 e2 e3 e4
  obtain ⟨w1, w2, w3⟩ := updateMetrics_trueNormal
    (decide (threshold st.environment.driftLevel < anomalyScore features))
    { st.stats with totalEvents := st.stats.totalEvents + 1 }
  refine ⟨?_, ?_, ?_, ?_⟩
  · simpa using pt_evt_trueLabel st device features none ts eid aid tnow hq
  · rw [e1, w1]
  · rw [e4, w2]
  · rw [e3, e2, w3]

/-- Witness for unknown_label_spec on the initial store and a fresh device. -/
theorem unknown_label_spec_witness :
    deviceW.quarantined = false ∧
    ((processTelemetry storeW deviceW featuresW none ("t") ("e") ("a") 0).evt.map
      Event.trueLabel = some ("Unknown")) ∧
    ((processTelemetry storeW deviceW featuresW none ("t") ("e") ("a") 0).store.stats.TN +
     (processTelemetry storeW deviceW featuresW none ("t") ("e") ("a") 0).store.stats.FP =
     storeW.stats.TN + storeW.stats.FP + 1) :=
  ⟨rfl,
   (unknown_label_spec storeW deviceW featuresW ("t") ("e") ("a") 0 rfl).1,
   (unknown_label_spec storeW deviceW featuresW ("t") ("e") ("a") 0 rfl).2.2.2⟩

/-- C8: on a scheduler tick with attackType none the generated true label is
Normal deterministically, irrespective of the uniform draw (hence of
attackLevel and driftLevel); with an active attack type the label is Attack
exactly when the uniform draw falls below clamp of 0.03 plus attackLevel
times 0.55 plus driftLevel times 0.15 between 0 and 0.95 - that is, with that
probability. -/
theorem tick_label_spec (env : Environment) (r : ℝ) :
    (env.attackType = "none" → tickTrueLabel env r = "Normal") ∧
    (¬ env.attackType = "none" → (tickTrueLabel env r = "Attack" ↔ r < pAttack env)) ∧
    pAttack env = clamp (0.03 + env.attackLevel * 0.55 + env.driftLevel * 0.15) 0 0.95 := by
  refine ⟨?_, ?_, rfl⟩
  · intro h
    simp [tickTrueLabel, isAttackTick, h]
  · intro h
    by_cases hr : r < pAttack env <;> simp [tickTrueLabel, isAttackTick, h, hr]

/-- Witness for tick_label_spec on the initial environment. -/
theorem tick_label_spec_witness :
    initialEnvironment.attackType = "none" ∧
    tickTrueLabel initialEnvironment 0.5 = "Normal" :=
  ⟨rfl, (tick_label_spec initialEnvironment 0.5).1 rfl⟩

lemma addTelemetry_spec (e : Event) (st : Store) (h : st.telemetry.length ≤ 600) :
    (addTelemetry e st).telemetry.length ≤ 600 ∧
    (addTelemetry e st).telemetry = (e :: st.telemetry).take 600 := by
  simp only [addTelemetry]
  by_cases hc : 600 < (e :: st.telemetry).length
  · rw [if_pos hc]
    constructor
    · rw [List.length_dropLast]
      simp only [List.length_cons] at hc ⊢
      omega
    · rw [List.dropLast_eq_take]
      congr 1
      simp only [List.length_cons] at hc ⊢
      omega
  · rw [if_neg hc]
    have hlen : (e :: st.telemetry).length ≤ 600 := not_lt.mp hc
    exact ⟨hlen, (List.take_of_length_le hlen).symm⟩

lemma addAlert_spec (a : Alert) (st : Store) (h : st.alerts.length ≤ 400) :
    (addAlert a st).alerts.length ≤ 400 ∧
    (addAlert a st).alerts = (a :: st.alerts).take 400 := by
  simp only [addAlert]
  by_cases hc : 400 < (a :: st.alerts).length
  · rw [if_pos hc]
    constructor
    · rw [List.length_dropLast]
      simp only [List.length_cons] at hc ⊢
      omega
    · rw [List.dropLast_eq_take]
      congr 1
      simp only [List.length_cons] at hc ⊢
      omega
  · rw [if_neg hc]
    have hlen : (a :: st.alerts).length ≤ 400 := not_lt.mp hc
    exact ⟨hlen, (List.take_of_length_le hlen).symm⟩

lemma addAlertOpt_le (o : Option Alert) (st : Store) (h : st.alerts.length ≤ 400) :
    (addAlertOpt o st).alerts.length ≤ 400 := by
  cases o with
  | none => exact h
  | some a => exact (addAlert_spec a st h).1

lemma pushSeries_le (arr : List ℝ) (x : ℝ) (h : arr.length ≤ 250) :
    (pushSeries arr x).length ≤ 250 := by
  simp only [pushSeries]
  by_cases hc : 250 < (arr ++ [x]).length
  · rw [if_pos hc]
    rw [List.length_tail]
    simp only [List.length_append, List.length_singleton] at hc ⊢
    omega
  · rw [if_neg hc]
    exact not_lt.mp hc

lemma pushTS_bounded (st : Store) (tnow : ℝ) (h : seriesBounded st.stats.timeseries) :
    seriesBounded (pushTimeseriesSnapshot st tnow).stats.timeseries := by
  obtain ⟨h1, h2, h3, h4, h5, h6⟩ := h
  exact ⟨pushSeries_le _ _ h1, pushSeries_le _ _ h2, pushSeries_le _ _ h3,
    pushSeries_le _ _ h4, pushSeries_le _ _ h5, pushSeries_le _ _ h6⟩

@[simp] lemma updateMetrics_timeseries (ta pa : Bool) (s : Stats) :
    (updateMetrics ta pa s).timeseries = s.timeseries := by
  cases ta <;> cases pa <;> rfl

lemma snapIf_bounded (c : Prop) [Decidable c] (s : Store) (tnow : ℝ)
    (h : seriesBounded s.stats.timeseries) :
    seriesBounded ((if c then pushTimeseriesSnapshot s tnow else s)).stats.timeseries := by
  split
  · exact pushTS_bounded s tnow h
  · exact h

lemma pt_histBounded (st : Store) (device : Device) (features : Features)
    (trueLabel : Option String) (ts eid aid : String) (tnow : ℝ)
    (h : histBounded st) :
    histBounded (processTelemetry st device features trueLabel ts eid aid tnow).store := by
  cases hq : device.quarantined with
  | true =>
    simp only [processTelemetry, hq, if_true]
    exact h
  | false =>
    obtain ⟨h1, h2, h3⟩ := h
    simp only [processTelemetry, hq, Bool.false_eq_true, if_false]
    refine ⟨?_, ?_, ?_⟩
    · simp only [snapIf_telemetry, addAlertOpt_telemetry]
      exact (addTelemetry_spec _ _ h1).1
    · simp only [snapIf_alerts]
      refine addAlertOpt_le _ _ ?_
      exact h2
    · refine snapIf_bounded _ _ _ ?_
      simpa using h3

/-- C9: the global histories stay within their bounds: the telemetry log holds
at most 600 entries and the alert log at most 400 (both kept newest-first:
the new entry goes at the front and the oldest entry is evicted), each of the
six parallel time-series arrays holds at most 250 points, every
processTelemetry call preserves all these bounds, and the initial store
satisfies them. -/
theorem history_bounds_spec (evt : Event) (alert : Alert) (st : Store) (device : Device)
    (features : Features) (trueLabel : Option String) (ts eid aid : String) (tnow : ℝ)
    (lw : List ℝ) :
    (st.telemetry.length ≤ 600 →
      (addTelemetry evt st).telemetry.length ≤ 600 ∧
      (addTelemetry evt st).telemetry = (evt :: st.telemetry).take 600) ∧
    (st.alerts.length ≤ 400 →
      (addAlert alert st).alerts.length ≤ 400 ∧
      (addAlert alert st).alerts = (alert :: st.alerts).take 400) ∧
    (seriesBounded st.stats.timeseries →
      seriesBounded (pushTimeseriesSnapshot st tnow).stats.timeseries) ∧
    (histBounded st →
      histBounded (processTelemetry st device features trueLabel ts eid aid tnow).store) ∧
    histBounded (initialStore lw) :=
  ⟨addTelemetry_spec evt st, addAlert_spec alert st, pushTS_bounded st tnow,
   pt_histBounded st device features trueLabel ts eid aid tnow,
   by simp [histBounded, seriesBounded, initialStore, initialStats, initialTimeseries]⟩

/-- Witness for history_bounds_spec on the initial store and a fresh device. -/
theorem history_bounds_spec_witness :
    histBounded (initialStore []) ∧
    histBounded (processTelemetry storeW deviceW featuresW none ("t") ("e") ("a") 0).store :=
  ⟨(history_bounds_spec evtW alertW storeW deviceW featuresW none ("t") ("e") ("a") 0
      []).2.2.2.2,
   (history_bounds_spec evtW alertW storeW deviceW featuresW none ("t") ("e") ("a") 0
      []).2.2.2.1
     ((history_bounds_spec evtW alertW storeW deviceW featuresW none ("t") ("e") ("a") 0
      []).2.2.2.2)⟩

end Theorems
